import Mathlib

/-!
# Verification of the champa cognitive-ai-inbox analysis pipeline

Shallow embedding of the message-analysis and reply-generation
orchestration pipeline of the repository (backend/app/ai and
backend/app/services), together with proofs of the specification
claims about it.

Python strings are modelled as Lean strings (code points), Python
floats as rationals, Python exceptions as an explicit error channel
(Except), and the database / vector store as explicit state passed
through the functions.
-/

set_option maxRecDepth 10000

namespace Champa

/-! ## Python string primitives

Helpers mirroring the Python string operations used by the source
(strip, lower, split, substring containment, replace, slicing). -/

/-- The double-quote character. -/
def dquote : Char := Char.ofNat 34

/-- The single-quote character. -/
def squote : Char := Char.ofNat 39

/-- Whitespace as recognised by Python str.strip (ASCII subset). -/
def isPySpace (c : Char) : Bool :=
  c == ' ' || c == '\t' || c == '\n' || c == '\r' || c == Char.ofNat 11 || c == Char.ofNat 12

/-- Python str.strip(): drop leading and trailing whitespace. -/
def pyStrip (s : String) : String :=
  ⟨((s.data.dropWhile isPySpace).reverse.dropWhile isPySpace).reverse⟩

/-- Python str.lower() (ASCII). -/
def pyLower (s : String) : String :=
  ⟨s.data.map Char.toLower⟩

/-- Python str.startswith. -/
def pyStarts (s pre : String) : Bool :=
  pre.data.isPrefixOf s.data

/-- Substring test on character lists (Python `needle in hay`). -/
def listContainsSub (needle : List Char) : List Char → Bool
  | [] => needle.isEmpty
  | c :: rest => needle.isPrefixOf (c :: rest) || listContainsSub needle rest

/-- Python `needle in hay` for strings. -/
def pyIn (needle hay : String) : Bool :=
  listContainsSub needle.data hay.data

/-- Split a character list at every separator character satisfying p
(Python str.split on a single character, or re.split on a character class). -/
def splitChars (p : Char → Bool) : List Char → List (List Char)
  | [] => [[]]
  | c :: rest =>
    let r := splitChars p rest
    if p c then [] :: r
    else
      match r with
      | [] => [[c]]
      | h :: t => (c :: h) :: t

/-- Python s.split(sep) for a single-character separator. -/
def pySplitChar (sep : Char) (s : String) : List String :=
  (splitChars (· == sep) s.data).map String.mk

/-- Python s.split(sep, 1): the part before the first separator and the rest.
Returns none when the separator does not occur. -/
def breakOnChar (sep : Char) : List Char → Option (List Char × List Char)
  | [] => none
  | c :: rest =>
    if c = sep then some ([], rest)
    else
      match breakOnChar sep rest with
      | some (a, b) => some (c :: a, b)
      | none => none

/-- The part of s after the first occurrence of sep
(Python s.split(sep, 1)[1], only used when sep is known to occur;
returns the empty string otherwise). -/
def pyAfterChar (sep : Char) (s : String) : String :=
  match breakOnChar sep s.data with
  | some (_, b) => ⟨b⟩
  | none => ""

/-- The part of s before the first occurrence of sep
(Python s.split(sep, 1)[0]). -/
def pyBeforeChar (sep : Char) (s : String) : String :=
  match breakOnChar sep s.data with
  | some (a, _) => ⟨a⟩
  | none => s

/-- Python str.replace on character lists, replacing every (leftmost,
non-overlapping) occurrence of needle by repl: structural recursion on
a fuel argument (every step consumes at least one character, so the
list length is enough fuel). The source only ever replaces nonempty
needles. -/
def listReplaceAux (needle repl : List Char) : Nat → List Char → List Char
  | 0, l => l
  | _ + 1, [] => []
  | fuel + 1, c :: rest =>
    if !needle.isEmpty && needle.isPrefixOf (c :: rest) then
      repl ++ listReplaceAux needle repl fuel ((c :: rest).drop needle.length)
    else
      c :: listReplaceAux needle repl fuel rest

/-- Python str.replace for strings. -/
def pyReplace (s needle repl : String) : String :=
  ⟨listReplaceAux needle.data repl.data s.data.length s.data⟩

/-- Python s[:n] (slice of the first n code points). -/
def pyTake (s : String) (n : Nat) : String :=
  ⟨s.data.take n⟩

/-- Length of a Python string in code points. -/
def pyLen (s : String) : Nat :=
  s.data.length

/-! ## Python float parsing and clamping

The chains parse model output with Python float() and clamp with
max(0.0, min(1.0, x)). Floats are modelled as rationals; pyFloat
models float() on finite decimal literals (optional sign, digits,
optional decimal point, optional exponent). The inf/nan literals are
not modelled; with them Python's clamp still lands in the unit
interval, so no claim verdict depends on the difference. -/

/-- Value of a list of decimal digit characters. -/
def digitsToNat (ds : List Char) : Nat :=
  ds.foldl (fun n c => n * 10 + (c.toNat - 48)) 0

/-- Split a leading run of decimal digits off a character list. -/
def takeDigits (cs : List Char) : List Char × List Char :=
  (cs.takeWhile Char.isDigit, cs.dropWhile Char.isDigit)

/-- Modelled Python float() on finite decimal literals, parsed into
scientific-notation data: some (n, p) stands for the value n times ten
to the p. -/
def pyFloatRaw (s : String) : Option (Int × Int) :=
  let cs := s.data
  let (neg, cs1) :=
    match cs with
    | '+' :: r => (false, r)
    | '-' :: r => (true, r)
    | r => (false, r)
  let (ip, cs2) := takeDigits cs1
  let (fp, cs3) :=
    match cs2 with
    | '.' :: r => takeDigits r
    | r => ([], r)
  if ip.isEmpty && fp.isEmpty then none
  else
    let n0 : Int := (digitsToNat (ip ++ fp) : Int)
    let n : Int := if neg then -n0 else n0
    match cs3 with
    | [] => some (n, -(fp.length : Int))
    | e :: rest =>
      if e == 'e' || e == 'E' then
        let (eneg, rest') :=
          match rest with
          | '+' :: r => (false, r)
          | '-' :: r => (true, r)
          | r => (false, r)
        let (ed, rest'') := takeDigits rest'
        if ed.isEmpty || !rest''.isEmpty then none
        else
          let ev : Int := (digitsToNat ed : Int)
          some (n, (if eneg then -ev else ev) - (fp.length : Int))
      else none

/-- Modelled Python float(): the rational value of a finite decimal literal. -/
def pyFloat (s : String) : Option ℚ :=
  (pyFloatRaw s).map fun v => (v.1 : ℚ) * 10 ^ v.2

/-- Python max(0.0, min(1.0, x)), the clamp used by the chains. -/
def clamp01 (x : ℚ) : ℚ :=
  max 0 (min 1 x)

/-! ## Priority scoring chain (app/ai/chains/prioritize.py)

calculate_priority renders a prompt, invokes the model, and parses the
returned text. The embedding takes the model's raw text response as
input and performs the parse: float() on the stripped text, clamped to
the unit interval, with 0.5 substituted when parsing raises ValueError. -/

/-- Parse step of calculate_priority in prioritize.py. -/
def calculate_priority (modelOutput : String) : ℚ :=
  match pyFloat (pyStrip modelOutput) with
  | some score => clamp01 score
  | none => 1/2

/-! ## Intent classification chain (app/ai/chains/classify.py) -/

/-- The fixed intent vocabulary of classify_intent. -/
def valid_intents : List String :=
  ["request", "information", "question", "meeting", "notification", "social", "other"]

/-- Parse step of classify_intent in classify.py: lower-case, trim, and
fall back to other when the token is out of vocabulary. -/
def classify_intent (modelOutput : String) : String :=
  let intent := pyLower (pyStrip modelOutput)
  if valid_intents.contains intent then intent else "other"

/-! ## Summarization chain (app/ai/chains/summarize.py) -/

/-- Parse step of summarize_message in summarize.py: the stripped model text. -/
def summarize_message (modelOutput : String) : String :=
  pyStrip modelOutput

/-! ## Spam detection chain (app/ai/chains/spam_detection.py)

The unsubscribe-link extraction is driven by Python regular
expressions; each regex of the source is embedded as a dedicated
scanner with re.search semantics (leftmost match, greedy character
classes, backtracking over the filler before href=). -/

/-- Scanner for the header regex matching an angle-bracket-wrapped URL:
at the given position, try to match a literal http:// or https://
scheme followed by a nonempty run of characters other than a closing
angle bracket, itself followed by one. Returns the captured URL. -/
def tryAngleAt (cs : List Char) : Option (List Char) :=
  let withScheme (scheme : List Char) : Option (List Char) :=
    if scheme.isPrefixOf cs then
      let rest := cs.drop scheme.length
      let body := rest.takeWhile (· != '>')
      if !body.isEmpty && (rest.drop body.length).head? = some '>' then
        some (scheme ++ body)
      else none
    else none
  match withScheme "https://".data with
  | some u => some u
  | none => withScheme "http://".data

/-- Leftmost match of the header regex over the value of the
list_unsubscribe metadata field. -/
def angleUrl : List Char → Option (List Char)
  | [] => none
  | c :: rest =>
    if c = '<' then
      match tryAngleAt rest with
      | some u => some u
      | none => angleUrl rest
    else angleUrl rest

/-- Is the character one of the two quote characters excluded from the
capture group of the anchor regexes? -/
def isQuoteChar (c : Char) : Bool :=
  c == dquote || c == squote

/-- Case-insensitive test for a literal href= at the head of the list. -/
def isHrefAt (cs : List Char) : Bool :=
  "href=".data.isPrefixOf (cs.map Char.toLower)

/-- Candidate offsets for the href= literal of the anchor regexes inside
the text following the anchor opening: offsets at least one (the filler
class requires one or more characters), reachable without crossing a
closing angle bracket. -/
def hrefPositions : List Char → Nat → List Nat
  | [], _ => []
  | c :: rest, i =>
    if c = '>' then []
    else
      (if 1 ≤ i && isHrefAt (c :: rest) then [i] else []) ++ hrefPositions rest (i + 1)

/-- Attempt the quoted-capture part of an anchor regex after a given
href= candidate: an opening quote, then the maximal run of non-quote
characters, which must contain the keyword (case-insensitively) and be
terminated by a quote. Returns the captured run. -/
def tryHrefCandidate (kw : List Char) (cs : List Char) (p : Nat) : Option (List Char) :=
  match cs.drop (p + 5) with
  | [] => none
  | q :: rest =>
    if isQuoteChar q then
      let r := rest.takeWhile (fun c => !isQuoteChar c)
      if !(rest.drop r.length).isEmpty && listContainsSub kw (r.map Char.toLower) then
        some r
      else none
    else none

/-- Leftmost-match scanner for an anchor regex of
extract_unsubscribe_link with the given (lower-case) keyword: find an
anchor opening, then try the href= candidates greedily (longest filler
first, backtracking to earlier candidates). -/
def anchorScan (kw : List Char) : List Char → Option (List Char)
  | [] => none
  | c :: rest =>
    let hit : Option (List Char) :=
      match rest with
      | a :: tail =>
        if c = '<' && a.toLower = 'a' then
          (hrefPositions tail 0).reverse.findSome? (tryHrefCandidate kw tail)
        else none
      | [] => none
    match hit with
    | some r => some r
    | none => anchorScan kw rest

/-- Character class of the bare-URL regexes: everything except
whitespace, angle brackets and the double quote. -/
def bareAllowed (c : Char) : Bool :=
  !(isPySpace c || c == '<' || c == '>' || c == dquote)

/-- Case-insensitive scheme match for the bare-URL regexes; returns the
length of the matched scheme. -/
def schemeAt (cs : List Char) : Option Nat :=
  let low := cs.map Char.toLower
  if "https://".data.isPrefixOf low then some 8
  else if "http://".data.isPrefixOf low then some 7
  else none

/-- Attempt a bare-URL regex match at the given position: a scheme,
then the maximal run of allowed characters, which must contain the
keyword at an offset of at least one (the character class before the
keyword requires one or more characters). The capture extends to the
end of the run. -/
def bareTryAt (kw : List Char) (cs : List Char) : Option (List Char) :=
  match schemeAt cs with
  | none => none
  | some n =>
    let run := (cs.drop n).takeWhile bareAllowed
    if listContainsSub kw ((run.drop 1).map Char.toLower) then
      some (cs.take n ++ run)
    else none

/-- Leftmost-match scanner for a bare-URL regex of
extract_unsubscribe_link with the given (lower-case) keyword. -/
def bareScan (kw : List Char) : List Char → Option (List Char)
  | [] => none
  | c :: rest =>
    match bareTryAt kw (c :: rest) with
    | some r => some r
    | none => bareScan kw rest

/-- Search content with an anchor regex, as a string function. -/
def anchorSearch (kw : String) (content : String) : Option String :=
  (anchorScan kw.data content.data).map String.mk

/-- Search content with a bare-URL regex, as a string function. -/
def bareSearch (kw : String) (content : String) : Option String :=
  (bareScan kw.data content.data).map String.mk

/-- extract_unsubscribe_link in spam_detection.py: the
list_unsubscribe metadata field is tried first with the
angle-bracket-URL regex, then the five content regexes in the order of
the source's pattern list (anchor unsubscribe, anchor opt-out, anchor
remove, bare unsubscribe, bare opt-out), returning the first match. -/
def extract_unsubscribe_link (content : String) (metadata : List (String × String)) : Option String :=
  let headerHit : Option String :=
    match metadata.lookup "list_unsubscribe" with
    | some v => (angleUrl v.data).map String.mk
    | none => none
  match headerHit with
  | some u => some u
  | none =>
    (anchorSearch "unsubscribe" content).orElse fun _ =>
    (anchorSearch "opt-out" content).orElse fun _ =>
    (anchorSearch "remove" content).orElse fun _ =>
    (bareSearch "unsubscribe" content).orElse fun _ =>
    bareSearch "opt-out" content

/-- Result dictionary of detect_spam. -/
structure SpamResult where
  is_spam : Bool
  spam_score : ℚ
  spam_type : String
  unsubscribe_link : Option String
  reason : String
deriving Repr, DecidableEq

/-- Mutable parse state of the line loop in detect_spam. -/
structure SpamParseState where
  is_spam : Bool
  spam_score : ℚ
  spam_type : String
  reason : String
deriving Repr, DecidableEq

/-- One iteration of the line loop in detect_spam. -/
def spamParseLine (st : SpamParseState) (line0 : String) : SpamParseState :=
  let line := pyStrip line0
  if pyStarts line "IS_SPAM:" then
    { st with is_spam := pyLower (pyStrip (pyAfterChar ':' line)) == "true" }
  else if pyStarts line "SPAM_SCORE:" then
    match pyFloat (pyStrip (pyAfterChar ':' line)) with
    | some v => { st with spam_score := clamp01 v }
    | none => { st with spam_score := if st.is_spam then 1/2 else 0 }
  else if pyStarts line "SPAM_TYPE:" then
    { st with spam_type := pyLower (pyStrip (pyAfterChar ':' line)) }
  else if pyStarts line "REASON:" then
    { st with reason := pyStrip (pyAfterChar ':' line) }
  else st

/-- The spam categories for which an unsubscribe link is extracted. -/
def unsubSpamTypes : List String :=
  ["promotional", "newsletter", "marketing"]

/-- detect_spam in spam_detection.py, taking the model's raw text
response plus the message content and metadata it post-processes. -/
def detect_spam (modelOutput : String) (content : String)
    (metadata : List (String × String)) : SpamResult :=
  let lines := pySplitChar '\n' (pyStrip modelOutput)
  let st := lines.foldl spamParseLine
    { is_spam := false, spam_score := 0, spam_type := "none", reason := "Not spam" }
  let unsubscribe_link :=
    if st.is_spam && unsubSpamTypes.contains st.spam_type then
      extract_unsubscribe_link content metadata
    else none
  { is_spam := st.is_spam
    spam_score := st.spam_score
    spam_type := st.spam_type
    unsubscribe_link := unsubscribe_link
    reason := st.reason }

/-! ## Task and deadline extraction chains (app/ai/chains/extract.py) -/

/-- The valid task types of extract_tasks. -/
def validTaskTypes : List String :=
  ["task", "deadline", "meeting"]

/-- One iteration of the line loop in extract_tasks; none means the
line is dropped. -/
def parseTaskLine (line0 : String) : Option (String × String) :=
  let line := pyStrip line0
  if line.isEmpty then none
  else if pyIn ":" line then
    let task_type := pyLower (pyStrip (pyBeforeChar ':' line))
    let description := pyStrip (pyAfterChar ':' line)
    if validTaskTypes.contains task_type then some (task_type, description)
    else none
  else none

/-- extract_tasks in extract.py, taking the model's raw text response. -/
def extract_tasks (modelOutput : String) : List (String × String) :=
  let result := pyStrip modelOutput
  if result == "NO_TASKS" || result.isEmpty then []
  else (pySplitChar '\n' result).filterMap parseTaskLine

/-- One iteration of the line loop in detect_deadlines; none means the
line is skipped. -/
def parseDeadlineLine (line0 : String) : Option (String × Option String) :=
  let line1 := pyStrip line0
  if line1.isEmpty || !pyStarts line1 "DEADLINE:" then none
  else
    let line := pyStrip (pyReplace line1 "DEADLINE:" "")
    if pyIn "|" line && pyIn "DATE:" line then
      let parts := pySplitChar '|' line
      let description := pyStrip (parts.getD 0 "")
      let date_part := pyStrip (parts.getD 1 "")
      if pyStarts date_part "DATE:" then
        let date_str := pyStrip (pyReplace date_part "DATE:" "")
        let low := pyLower date_str
        if low == "none" || low == "not mentioned" || low == "" then
          some (description, none)
        else some (description, some date_str)
      else some (description, none)
    else some (line, none)

/-- detect_deadlines in extract.py, taking the model's raw text response. -/
def detect_deadlines (modelOutput : String) : List (String × Option String) :=
  let result := pyStrip modelOutput
  if result == "NO_DEADLINES" || result.isEmpty then []
  else (pySplitChar '\n' result).filterMap parseDeadlineLine

/-! ## Smart reply suggestion chain (app/ai/chains/smart_reply.py) -/

/-- One parsed reply suggestion of generate_smart_replies. -/
structure ReplySuggestion where
  text : String
  type : String
  confidence : ℚ
deriving Repr, DecidableEq

/-- One iteration of the line loop in generate_smart_replies. -/
def parseReplyLine (line0 : String) : Option ReplySuggestion :=
  let line := pyStrip line0
  if !pyStarts line "REPLY_" then none
  else if !pyIn ":" line then none
  else
    let reply_content := pyStrip (pyAfterChar ':' line)
    let (reply_type, reply_content) :=
      if pyStarts reply_content "[" && pyIn "]" reply_content then
        (pyLower (pyBeforeChar ']' (pyAfterChar '[' reply_content)),
         pyStrip (pyAfterChar ']' reply_content))
      else ("general", reply_content)
    let confidence : ℚ :=
      if reply_type == "acknowledgment" || reply_type == "thanks" then 9/10
      else if pyLen reply_content < 20 then 7/10
      else 8/10
    some { text := reply_content, type := reply_type, confidence := confidence }

/-- The three hard-coded fallback suggestions of generate_smart_replies. -/
def fallbackReplies : List ReplySuggestion :=
  [ { text := "Thank you for your message.", type := "acknowledgment", confidence := 3/5 }
  , { text := "I'll get back to you soon.", type := "defer", confidence := 3/5 }
  , { text := "Thanks for reaching out!", type := "thanks", confidence := 3/5 } ]

/-- generate_smart_replies in smart_reply.py, taking the model's raw
text response. -/
def generate_smart_replies (modelOutput : String) : List ReplySuggestion :=
  let replies := (pySplitChar '\n' (pyStrip modelOutput)).filterMap parseReplyLine
  let replies := if replies.isEmpty then fallbackReplies else replies
  replies.take 3

/-! ## Python exceptions -/

/-- A Python exception value: class name and message. -/
structure PyErr where
  kind : String
  msg : String
deriving Repr, DecidableEq

/-- The ValueError raised by AIConfig in app/ai/config.py when no
OpenAI credentials are configured; this is the non-recoverable
initialization error every chain construction raises in that state. -/
def initError : PyErr :=
  ⟨"ValueError", "OPENAI_API_KEY environment variable must be set"⟩

/-! ## Data model (app/schemas/message.py, app/ai/agents/analyzer.py) -/

/-- NormalizedMessage in app/schemas/message.py. The open metadata bag
is modelled as an association list of string values (only the
list_unsubscribe entry is ever read by the core). Timestamps are
abstract ticks. -/
structure NormalizedMessage where
  id : String
  user_id : String
  platform : String
  platform_message_id : String
  sender : String
  content : String
  subject : Option String
  timestamp : Nat
  thread_id : Option String
  metadata : List (String × String)
deriving Repr, DecidableEq

/-- Task in analyzer.py. -/
structure MsgTask where
  type : String
  description : String
  deadline : Option String
deriving Repr, DecidableEq

/-- Deadline in analyzer.py. -/
structure MsgDeadline where
  description : String
  date : Option String
deriving Repr, DecidableEq

/-- MessageAnalysisResult in analyzer.py. -/
structure MessageAnalysisResult where
  summary : String
  intent : String
  priority_score : ℚ
  tasks : List MsgTask
  deadlines : List MsgDeadline
  is_spam : Bool
  spam_score : ℚ
  spam_type : String
  unsubscribe_link : Option String
deriving Repr, DecidableEq

/-! ## The orchestrator (app/ai/agents/analyzer.py)

MessageAnalysisAgent.analyze launches the six chain coroutines with
asyncio.gather(..., return_exceptions=True): each coroutine's outcome
is delivered as either its value or the exception it raised. The
embedding takes those six outcomes as input; the unpacking with the
isinstance checks and the per-field defaults is translated below.
Outcomes of the data shapes the source guarantees (each chain returns
its typed value) are the only ones possible, so the dictionary and
tuple accesses of the source cannot themselves raise. -/

instance {ε α : Type} [DecidableEq ε] [DecidableEq α] : DecidableEq (Except ε α) := fun a b =>
  match a, b with
  | .ok x, .ok y =>
    if h : x = y then .isTrue (by rw [h]) else .isFalse (by simp [h])
  | .error x, .error y =>
    if h : x = y then .isTrue (by rw [h]) else .isFalse (by simp [h])
  | .ok _, .error _ => .isFalse (by simp)
  | .error _, .ok _ => .isFalse (by simp)

/-- The six gathered coroutine outcomes inside
MessageAnalysisAgent.analyze, in the order of the asyncio.gather call. -/
structure RunnerOutcomes where
  summarize : Except PyErr String
  classify : Except PyErr String
  prioritize : Except PyErr ℚ
  extractTasks : Except PyErr (List (String × String))
  detectDeadlines : Except PyErr (List (String × Option String))
  detectSpam : Except PyErr SpamResult
deriving Repr, DecidableEq

namespace MessageAnalysisAgent

/-- MessageAnalysisAgent.analyze in analyzer.py: unpack the gathered
results, substituting a documented default for each outcome that is an
exception, and build the result object. The Except return type is the
function's own exception channel (it always returns ok). -/
def analyze (r : RunnerOutcomes) : Except PyErr MessageAnalysisResult :=
  let summary := match r.summarize with | .ok v => v | .error _ => "Error generating summary"
  let intent := match r.classify with | .ok v => v | .error _ => "other"
  let priority_score := match r.prioritize with | .ok v => v | .error _ => 1/2
  let task_tuples := match r.extractTasks with | .ok v => v | .error _ => []
  let deadline_tuples := match r.detectDeadlines with | .ok v => v | .error _ => []
  let (is_spam, spam_score, spam_type, unsubscribe_link) :=
    match r.detectSpam with
    | .ok v => (v.is_spam, v.spam_score, v.spam_type, v.unsubscribe_link)
    | .error _ => (false, 0, "none", none)
  .ok
    { summary := summary
      intent := intent
      priority_score := priority_score
      tasks := task_tuples.map fun t => { type := t.1, description := t.2, deadline := none }
      deadlines := deadline_tuples.map fun d => { description := d.1, date := d.2 }
      is_spam := is_spam
      spam_score := spam_score
      spam_type := spam_type
      unsubscribe_link := unsubscribe_link }

end MessageAnalysisAgent

/-- The per-runner model responses of one analysis pass: each chain
invocation either raises (client error) or returns the model's raw
text. -/
structure RunnerCalls where
  summarize : Except PyErr String
  classify : Except PyErr String
  prioritize : Except PyErr String
  extractTasks : Except PyErr String
  detectDeadlines : Except PyErr String
  detectSpam : Except PyErr String
deriving Repr, DecidableEq

/-- The six runner outcomes produced from the model responses: each
chain applies its parse step to the raw text it received. -/
def runnerOutcomes (c : RunnerCalls) (msg : NormalizedMessage) : RunnerOutcomes :=
  { summarize := c.summarize.map summarize_message
    classify := c.classify.map classify_intent
    prioritize := c.prioritize.map calculate_priority
    extractTasks := c.extractTasks.map extract_tasks
    detectDeadlines := c.detectDeadlines.map detect_deadlines
    detectSpam := c.detectSpam.map fun out => detect_spam out msg.content msg.metadata }

/-! ## The rule-based fallback processor (app/ai/fallback.py) -/

namespace BasicTextProcessor

/-- self.task_keywords. -/
def task_keywords : List String :=
  ["todo", "task", "action item", "need to", "should", "must",
   "please", "can you", "could you", "would you"]

/-- self.deadline_keywords. -/
def deadline_keywords : List String :=
  ["deadline", "due", "by", "before", "until", "eod", "eow",
   "today", "tomorrow", "next week", "this week"]

/-- self.high_priority_keywords. -/
def high_priority_keywords : List String :=
  ["urgent", "asap", "critical", "important", "emergency",
   "immediately", "high priority"]

/-- self.medium_priority_keywords. -/
def medium_priority_keywords : List String :=
  ["soon", "when possible", "at your convenience"]

/-- generate_summary: subject when truthy (truncated to 150), else
content, truncated to 147 characters plus an ellipsis when long. -/
def generate_summary (msg : NormalizedMessage) : String :=
  let content := pyStrip msg.content
  let subj := msg.subject.getD ""
  if subj != "" then pyTake subj 150
  else if pyLen content ≤ 150 then content
  else pyTake content 147 ++ "..."

/-- classify_intent: fixed-priority keyword rules. -/
def fbClassifyIntent (msg : NormalizedMessage) : String :=
  let content_lower := pyLower msg.content
  if pyIn "?" msg.content then "question"
  else if task_keywords.any (fun k => pyIn k content_lower) then "task_request"
  else if msg.platform == "calendar" then "meeting"
  else if ["fyi", "info", "update", "announcement"].any (fun w => pyIn w content_lower) then
    "information"
  else "general"

/-- Sentence split used by the task and deadline scans:
re.split on the class of sentence separators. -/
def fbSentences (content : String) : List String :=
  (splitChars (fun c => c == '.' || c == '!' || c == '?' || c == '\n') content.data).map String.mk

/-- The first sentence containing the keyword with a stripped length
above ten (the inner loop of extract_tasks and detect_deadlines). -/
def firstKeywordSentence (kw : String) (content : String) : Option String :=
  (fbSentences content).find? fun s =>
    pyIn kw (pyLower s) && decide (10 < pyLen (pyStrip s))

/-- extract_tasks: one task dictionary per matching keyword, capped at
three. -/
def fbExtractTasks (msg : NormalizedMessage) : List MsgTask :=
  let content_lower := pyLower msg.content
  let tasks := task_keywords.foldl
    (fun acc kw =>
      if pyIn kw content_lower then
        match firstKeywordSentence kw msg.content with
        | some s =>
          acc ++ [{ type := "task", description := pyTake (pyStrip s) 200, deadline := none }]
        | none => acc
      else acc)
    ([] : List MsgTask)
  tasks.take 3

/-- detect_deadlines: one deadline dictionary per matching keyword,
capped at two, dates never parsed. -/
def fbDetectDeadlines (msg : NormalizedMessage) : List MsgDeadline :=
  let content_lower := pyLower msg.content
  let deadlines := deadline_keywords.foldl
    (fun acc kw =>
      if pyIn kw content_lower then
        match firstKeywordSentence kw msg.content with
        | some s => acc ++ [{ description := pyTake (pyStrip s) 200, date := none }]
        | none => acc
      else acc)
    ([] : List MsgDeadline)
  deadlines.take 2

/-- calculate_priority: first matching keyword rule wins. -/
def fbCalculatePriority (msg : NormalizedMessage) : ℚ :=
  let content_lower := pyLower msg.content
  if high_priority_keywords.any (fun k => pyIn k content_lower) then 9/10
  else if medium_priority_keywords.any (fun k => pyIn k content_lower) then 3/5
  else if pyIn "?" msg.content then 1/2
  else if task_keywords.any (fun k => pyIn k content_lower) then 1/2
  else 3/10

end BasicTextProcessor

/-- The dictionary returned by BasicTextProcessor.analyze, including
its fallback_used flag. -/
structure FallbackAnalysis where
  summary : String
  intent : String
  priority_score : ℚ
  tasks : List MsgTask
  deadlines : List MsgDeadline
  fallback_used : Bool
deriving Repr, DecidableEq

/-- BasicTextProcessor.analyze in fallback.py: the pure rule-based
analysis, tagged with fallback_used. -/
def basicProcessorAnalyze (msg : NormalizedMessage) : FallbackAnalysis :=
  { summary := BasicTextProcessor.generate_summary msg
    intent := BasicTextProcessor.fbClassifyIntent msg
    priority_score := BasicTextProcessor.fbCalculatePriority msg
    tasks := BasicTextProcessor.fbExtractTasks msg
    deadlines := BasicTextProcessor.fbDetectDeadlines msg
    fallback_used := true }

/-! ## Relational rows (app/models/message.py) and vector store -/

/-- A row of the message_analysis table (MessageAnalysis model). -/
structure AnalysisRow where
  message_id : String
  summary : String
  intent : String
  priority_score : ℚ
  is_spam : Bool
  spam_score : ℚ
  spam_type : String
  unsubscribe_link : Option String
deriving Repr, DecidableEq

/-- A row of the actionable_items table (ActionableItem model). -/
structure ActionableItemRow where
  message_id : String
  user_id : String
  type : String
  description : String
  deadline : Option Nat
  completed : Bool
deriving Repr, DecidableEq

/-- A row of the smart_replies table (SmartReply model); ids are
modelled as insertion indices. -/
structure SmartReplyRow where
  id : Nat
  message_id : String
  user_id : String
  draft_content : String
  status : String
  reviewed_at : Option Nat
  sent_at : Option Nat
deriving Repr, DecidableEq

/-- The relational store as seen by the AI service. -/
structure DbState where
  analyses : List AnalysisRow
  actionables : List ActionableItemRow
  smart_replies : List SmartReplyRow
deriving Repr, DecidableEq

/-- A point of the Qdrant collection; the point id is the message id,
the payload records the owning user. -/
structure EmbeddingPoint where
  message_id : String
  user_id : String
deriving Repr, DecidableEq

/-- The vector store's collection. -/
abbrev VectorStore := List EmbeddingPoint

/-- Qdrant upsert keyed by point id (message id). -/
def vecUpsert (vec : VectorStore) (p : EmbeddingPoint) : VectorStore :=
  vec.filter (fun q => q.message_id != p.message_id) ++ [p]

namespace QdrantManager

/-- delete_message_embedding in qdrant_client.py: the client delete's
outcome is caught inside the manager, which reports it as a boolean
instead of raising. -/
def delete_message_embedding (outcome : Except PyErr Unit) (message_id : String)
    (vec : VectorStore) : Bool × VectorStore :=
  match outcome with
  | .ok _ => (true, vec.filter (fun p => p.message_id != message_id))
  | .error _ => (false, vec)

/-- delete_user_embeddings in qdrant_client.py: filter delete by the
user_id payload field, exceptions caught and reported as a boolean. -/
def delete_user_embeddings (outcome : Except PyErr Unit) (user_id : String)
    (vec : VectorStore) : Bool × VectorStore :=
  match outcome with
  | .ok _ => (true, vec.filter (fun p => p.user_id != user_id))
  | .error _ => (false, vec)

end QdrantManager

/-! ## The persistence coordinator (app/services/ai.py) -/

/-- Modelled from the standard library: datetime.fromisoformat,
restricted to the calendar-date form YYYY-MM-DD; anything else is a
parse failure (the service catches the failure and stores no date).
The returned value encodes the date as a number. -/
def fromisoformat (s : String) : Option Nat :=
  match s.data with
  | [y1, y2, y3, y4, h1, m1, m2, h2, d1, d2] =>
    if y1.isDigit && y2.isDigit && y3.isDigit && y4.isDigit &&
       h1 == '-' && h2 == '-' && m1.isDigit && m2.isDigit && d1.isDigit && d2.isDigit then
      let m := digitsToNat [m1, m2]
      let d := digitsToNat [d1, d2]
      if 1 ≤ m && m ≤ 12 && 1 ≤ d && d ≤ 31 then
        some (digitsToNat [y1, y2, y3, y4] * 10000 + m * 100 + d)
      else none
    else none
  | _ => none

/-- The analysis value analyze_message works with: either the agent's
result object or the ad hoc FallbackResult shim built in the except
branch (which carries only summary, intent, priority_score, tasks and
deadlines copied from the fallback dictionary; in particular the
fallback_used flag is not copied). -/
inductive AnalysisSource where
  | agent (r : MessageAnalysisResult)
  | fallbackShim (f : FallbackAnalysis)
deriving Repr, DecidableEq

namespace AnalysisSource

/-- analysis_result.summary. -/
def summary : AnalysisSource → String
  | agent r => r.summary
  | fallbackShim f => f.summary

/-- analysis_result.intent. -/
def intent : AnalysisSource → String
  | agent r => r.intent
  | fallbackShim f => f.intent

/-- analysis_result.priority_score. -/
def priority_score : AnalysisSource → ℚ
  | agent r => r.priority_score
  | fallbackShim f => f.priority_score

/-- analysis_result.tasks. -/
def tasks : AnalysisSource → List MsgTask
  | agent r => r.tasks
  | fallbackShim f => f.tasks

/-- analysis_result.deadlines. -/
def deadlines : AnalysisSource → List MsgDeadline
  | agent r => r.deadlines
  | fallbackShim f => f.deadlines

/-- getattr(analysis_result, is_spam, False): the shim has no spam
attributes, so the default applies. -/
def is_spam : AnalysisSource → Bool
  | agent r => r.is_spam
  | fallbackShim _ => false

/-- getattr(analysis_result, spam_score, 0.0). -/
def spam_score : AnalysisSource → ℚ
  | agent r => r.spam_score
  | fallbackShim _ => 0

/-- getattr(analysis_result, spam_type, none). -/
def spam_type : AnalysisSource → String
  | agent r => r.spam_type
  | fallbackShim _ => "none"

/-- getattr(analysis_result, unsubscribe_link, None). -/
def unsubscribe_link : AnalysisSource → Option String
  | agent r => r.unsubscribe_link
  | fallbackShim _ => none

end AnalysisSource

/-- The MessageAnalysis response schema (app/schemas/message.py). -/
structure MessageAnalysisSchema where
  message_id : String
  summary : String
  intent : String
  priority_score : ℚ
  is_spam : Bool
  spam_score : ℚ
  spam_type : String
  unsubscribe_link : Option String
  tasks : List MsgTask
  deadlines : List MsgDeadline
deriving Repr, DecidableEq

/-- The pydantic ValidationError raised by out-of-range field values. -/
def validationError : PyErr :=
  ⟨"ValidationError", "score out of range"⟩

/-- The SQLAlchemy error raised by a failing commit. -/
def commitError : PyErr :=
  ⟨"SQLAlchemyError", "commit failed"⟩

/-- Pydantic construction of the MessageAnalysis schema: the unit
interval bounds on priority_score and spam_score are validated and
violation raises. -/
def mkMessageAnalysisSchema (src : AnalysisSource) (message_id : String) :
    Except PyErr MessageAnalysisSchema :=
  if decide (0 ≤ src.priority_score) && decide (src.priority_score ≤ 1) &&
     decide (0 ≤ src.spam_score) && decide (src.spam_score ≤ 1) then
    .ok
      { message_id := message_id
        summary := src.summary
        intent := src.intent
        priority_score := src.priority_score
        is_spam := src.is_spam
        spam_score := src.spam_score
        spam_type := src.spam_type
        unsubscribe_link := src.unsubscribe_link
        tasks := src.tasks
        deadlines := src.deadlines }
  else .error validationError

/-- The try/except around the orchestrator call at the top of
analyze_message: on an orchestrator exception the fallback processor
runs and its dictionary is wrapped in the FallbackResult shim. -/
def analysisSource (orch : Except PyErr MessageAnalysisResult) (msg : NormalizedMessage) :
    AnalysisSource :=
  match orch with
  | .ok r => .agent r
  | .error _ => .fallbackShim (basicProcessorAnalyze msg)

namespace AIService

/-- The no-reply pattern list of _is_replyable_sender. -/
def no_reply_patterns : List String :=
  ["no-reply", "noreply", "no_reply", "donotreply", "do-not-reply", "do_not_reply",
   "notifications", "automated", "mailer-daemon", "postmaster"]

/-- _is_replyable_sender in services/ai.py: an empty sender is not
replyable, and neither is one containing a no-reply pattern
(case-insensitive substring). -/
def is_replyable_sender (sender : String) : Bool :=
  if sender == "" then false
  else
    let sender_lower := pyLower sender
    !(no_reply_patterns.any fun p => pyIn p sender_lower)

/-- The message_analysis row written by analyze_message. -/
def mkAnalysisRow (msg : NormalizedMessage) (src : AnalysisSource) : AnalysisRow :=
  { message_id := msg.id
    summary := src.summary
    intent := src.intent
    priority_score := src.priority_score
    is_spam := src.is_spam
    spam_score := src.spam_score
    spam_type := src.spam_type
    unsubscribe_link := src.unsubscribe_link }

/-- The actionable_items rows written by analyze_message: one per
task (deadline column always empty) followed by one per detected
deadline (date string opportunistically parsed, failure leaving the
column empty). -/
def mkActionableRows (msg : NormalizedMessage) (src : AnalysisSource) : List ActionableItemRow :=
  (src.tasks.map fun t =>
    { message_id := msg.id
      user_id := msg.user_id
      type := t.type
      description := t.description
      deadline := none
      completed := false }) ++
  (src.deadlines.map fun d =>
    { message_id := msg.id
      user_id := msg.user_id
      type := "deadline"
      description := d.description
      deadline := d.date.bind fromisoformat
      completed := false })

/-- The smart_replies suggestion rows written by
_generate_reply_suggestions for the given suggestion texts. -/
def mkSuggestionRows (msg : NormalizedMessage) (texts : List String) (startId : Nat) :
    List SmartReplyRow :=
  texts.enum.map fun it =>
    { id := startId + it.1
      message_id := msg.id
      user_id := msg.user_id
      draft_content := it.2
      status := "suggestion"
      reviewed_at := none
      sent_at := none }

/-- Outcomes of the external calls made during one analyze_message
run: the analysis commit, the smart-reply chain invocation, the commit
inside the suggestion step, and the embedding generation and upsert. -/
structure AnalyzeEnv where
  commitOk : Bool
  replyModel : Except PyErr String
  replyCommitOk : Bool
  embedCall : Except PyErr Unit
deriving Repr, DecidableEq

/-- Result of one analyze_message run: the returned value or exception
together with the final stores, plus two ghost observations used by
the specification (which branch produced the analysis and whether the
suggestion step was entered). -/
structure AnalyzeOutput where
  result : Except PyErr MessageAnalysisSchema
  db : DbState
  vec : VectorStore
  usedFallback : Bool
  repliesTriggered : Bool
deriving Repr, DecidableEq

/-- AIService.analyze_message in services/ai.py, taking the already
awaited orchestrator outcome. On an orchestrator exception the
fallback processor runs and its dictionary is wrapped in the
FallbackResult shim. The analysis row and actionable items are then
committed (a commit failure raises and nothing later runs); the gated
suggestion step and the embedding write are best-effort; the pydantic
response schema is built last. -/
def analyze_message (orch : Except PyErr MessageAnalysisResult) (env : AnalyzeEnv)
    (msg : NormalizedMessage) (db : DbState) (vec : VectorStore) : AnalyzeOutput :=
  let src := analysisSource orch msg
  let usedFallback :=
    match orch with
    | .ok _ => false
    | .error _ => true
  if !env.commitOk then
    { result := .error commitError, db := db, vec := vec
      usedFallback := usedFallback, repliesTriggered := false }
  else
    let db1 : DbState :=
      { db with
          analyses := db.analyses ++ [mkAnalysisRow msg src]
          actionables := db.actionables ++ mkActionableRows msg src }
    let should_generate_replies :=
      !src.is_spam && decide ((3 : ℚ)/10 < src.priority_score) && is_replyable_sender msg.sender
    let db2 :=
      if should_generate_replies then
        match env.replyModel with
        | .ok out =>
          if env.replyCommitOk then
            { db1 with
                smart_replies := db1.smart_replies ++
                  mkSuggestionRows msg ((generate_smart_replies out).map (·.text))
                    db1.smart_replies.length }
          else db1
        | .error _ => db1
      else db1
    let vec2 :=
      match env.embedCall with
      | .ok _ => vecUpsert vec ⟨msg.id, msg.user_id⟩
      | .error _ => vec
    { result := mkMessageAnalysisSchema src msg.id
      db := db2
      vec := vec2
      usedFallback := usedFallback
      repliesTriggered := should_generate_replies }

/-- AIService.reanalyze_message in services/ai.py: delete the existing
analysis row and actionable items for the message, commit, and run a
fresh analyze_message. -/
def reanalyze_message (deleteCommitOk : Bool) (orch : Except PyErr MessageAnalysisResult)
    (env : AnalyzeEnv) (msg : NormalizedMessage) (db : DbState) (vec : VectorStore) :
    AnalyzeOutput :=
  if !deleteCommitOk then
    { result := .error commitError, db := db, vec := vec
      usedFallback := false, repliesTriggered := false }
  else
    let db' : DbState :=
      { db with
          analyses := db.analyses.filter (fun a => a.message_id != msg.id)
          actionables := db.actionables.filter (fun a => a.message_id != msg.id) }
    analyze_message orch env msg db' vec

/-- AIService.delete_message_data in services/ai.py: delete the
relational rows for the message and commit, then ask the Qdrant
manager to delete the embedding. The manager's boolean outcome is
ignored; only an exception inside the try block (a relational failure)
produces the False return. -/
def delete_message_data (commitOk : Bool) (vecOutcome : Except PyErr Unit)
    (message_id : String) (db : DbState) (vec : VectorStore) : Bool × DbState × VectorStore :=
  if !commitOk then (false, db, vec)
  else
    let db' : DbState :=
      { db with
          analyses := db.analyses.filter (fun a => a.message_id != message_id)
          actionables := db.actionables.filter (fun a => a.message_id != message_id) }
    let v := QdrantManager.delete_message_embedding vecOutcome message_id vec
    (true, db', v.2)

/-- AIService.delete_user_data in services/ai.py: delete the user's
actionable items and commit (analysis rows are not touched), then ask
the Qdrant manager to delete the user's embeddings, again ignoring the
manager's boolean outcome. -/
def delete_user_data (commitOk : Bool) (vecOutcome : Except PyErr Unit)
    (user_id : String) (db : DbState) (vec : VectorStore) : Bool × DbState × VectorStore :=
  if !commitOk then (false, db, vec)
  else
    let db' : DbState := { db with actionables := db.actionables.filter (fun a => a.user_id != user_id) }
    let v := QdrantManager.delete_user_embeddings vecOutcome user_id vec
    (true, db', v.2)

end AIService

/-- The full analysis pipeline from per-runner model responses: the
orchestrator consumes the parsed runner outcomes and the persistence
coordinator consumes the orchestrator's outcome. -/
def analyzeMessageFromCalls (c : RunnerCalls) (env : AIService.AnalyzeEnv)
    (msg : NormalizedMessage) (db : DbState) (vec : VectorStore) : AIService.AnalyzeOutput :=
  AIService.analyze_message (MessageAnalysisAgent.analyze (runnerOutcomes c msg)) env msg db vec

/-! ## The reply review workflow (app/services/reply.py)

The database commits inside these guarded transitions are modelled as
succeeding; the external send call's outcome is a parameter. -/

namespace SmartReplyService

/-- The query shared by approve, edit and reject: first smart reply
matching id, owner and pending status. -/
def queryPendingReply (replies : List SmartReplyRow) (reply_id : Nat) (user_id : String) :
    Option SmartReplyRow :=
  (replies.filter fun r => r.id == reply_id && r.user_id == user_id && r.status == "pending").head?

/-- Write an updated reply row back to the table. -/
def updateReply (replies : List SmartReplyRow) (r' : SmartReplyRow) : List SmartReplyRow :=
  replies.map fun r => if r.id == r'.id then r' else r

/-- SmartReplyService.edit_reply: requires a pending reply owned by
the user, replaces the draft content and stamps the review time,
leaving the status pending for re-approval. -/
def edit_reply (replies : List SmartReplyRow) (reply_id : Nat) (user_id : String)
    (new_content : String) (now : Nat) : Except PyErr SmartReplyRow × List SmartReplyRow :=
  match queryPendingReply replies reply_id user_id with
  | none => (.error ⟨"ValueError", "Reply not found or not pending"⟩, replies)
  | some reply =>
    let reply' := { reply with draft_content := new_content, reviewed_at := some now }
    (.ok reply', updateReply replies reply')

/-- SmartReplyService.approve_reply: requires a pending reply owned by
the user and an existing original message; sends via the platform, on
success stamping sent with both timestamps, on send failure stamping
approved with the review timestamp and re-raising. -/
def approve_reply (replies : List SmartReplyRow) (messageIds : List String)
    (reply_id : Nat) (user_id : String) (sendOutcome : Except PyErr Unit) (now : Nat) :
    Except PyErr SmartReplyRow × List SmartReplyRow :=
  match queryPendingReply replies reply_id user_id with
  | none => (.error ⟨"ValueError", "Reply not found or not pending"⟩, replies)
  | some reply =>
    if !messageIds.contains reply.message_id then
      (.error ⟨"ValueError", "Original message not found"⟩, replies)
    else
      match sendOutcome with
      | .ok _ =>
        let reply' := { reply with status := "sent", reviewed_at := some now, sent_at := some now }
        (.ok reply', updateReply replies reply')
      | .error e =>
        let reply' := { reply with status := "approved", reviewed_at := some now }
        (.error ⟨"Exception", "Failed to send reply: " ++ e.msg⟩, updateReply replies reply')

/-- SmartReplyService.reject_reply: requires a pending reply owned by
the user and stamps it rejected. -/
def reject_reply (replies : List SmartReplyRow) (reply_id : Nat) (user_id : String)
    (now : Nat) : Except PyErr SmartReplyRow × List SmartReplyRow :=
  match queryPendingReply replies reply_id user_id with
  | none => (.error ⟨"ValueError", "Reply not found or not pending"⟩, replies)
  | some reply =>
    let reply' := { reply with status := "rejected", reviewed_at := some now }
    (.ok reply', updateReply replies reply')

end SmartReplyService

/-! ## Concrete fixtures used by counterexamples and witnesses -/

/-- All six runner outcomes failing with the non-recoverable
initialization error (no credentials configured). -/
def allInitErrors : RunnerOutcomes :=
  { summarize := .error initError
    classify := .error initError
    prioritize := .error initError
    extractTasks := .error initError
    detectDeadlines := .error initError
    detectSpam := .error initError }

/-- All six chain invocations raising the non-recoverable
initialization error. -/
def allFailCalls : RunnerCalls :=
  { summarize := .error initError
    classify := .error initError
    prioritize := .error initError
    extractTasks := .error initError
    detectDeadlines := .error initError
    detectSpam := .error initError }

/-- A concrete benign message. -/
def sampleMsg : NormalizedMessage :=
  { id := "m1"
    user_id := "u1"
    platform := "gmail"
    platform_message_id := "pm1"
    sender := "alice@example.com"
    content := "Can you review the report?"
    subject := some "Report"
    timestamp := 0
    thread_id := none
    metadata := [] }

/-- An environment in which every external call of analyze_message
succeeds. -/
def envOk : AIService.AnalyzeEnv :=
  { commitOk := true
    replyModel := .ok ""
    replyCommitOk := true
    embedCall := .ok () }

/-- The empty relational store. -/
def dbEmpty : DbState :=
  { analyses := [], actionables := [], smart_replies := [] }

/-- An agent result whose fields coincide with what the fallback
processor produces for the sample message: used to show the returned
schema of a degraded run is indistinguishable from a model-backed one. -/
def mirroredAgentResult : MessageAnalysisResult :=
  { summary := (basicProcessorAnalyze sampleMsg).summary
    intent := (basicProcessorAnalyze sampleMsg).intent
    priority_score := (basicProcessorAnalyze sampleMsg).priority_score
    tasks := (basicProcessorAnalyze sampleMsg).tasks
    deadlines := (basicProcessorAnalyze sampleMsg).deadlines
    is_spam := false
    spam_score := 0
    spam_type := "none"
    unsubscribe_link := none }

/-- A concrete pending reply draft. -/
def samplePendingReply : SmartReplyRow :=
  { id := 0
    message_id := "m1"
    user_id := "u1"
    draft_content := "old draft"
    status := "pending"
    reviewed_at := none
    sent_at := none }

/-- A concrete relational state: one analysed message m1 of user u1
with one actionable item. -/
def sampleDb : DbState :=
  { analyses := [{ message_id := "m1", summary := "s", intent := "other", priority_score := 1/2,
                   is_spam := false, spam_score := 0, spam_type := "none",
                   unsubscribe_link := none }]
    actionables := [{ message_id := "m1", user_id := "u1", type := "task", description := "d",
                      deadline := none, completed := false }]
    smart_replies := [] }

/-- The vector point for message m1. -/
def sampleVec : VectorStore :=
  [{ message_id := "m1", user_id := "u1" }]

/-! ## Helper lemmas -/

theorem clamp01_nonneg (x : ℚ) : 0 ≤ clamp01 x := le_max_left 0 _

theorem clamp01_le_one (x : ℚ) : clamp01 x ≤ 1 :=
  max_le (by norm_num) (min_le_left 1 x)

theorem spamParseLine_score_bounds (st : SpamParseState) (line0 : String)
    (h0 : 0 ≤ st.spam_score) (h1 : st.spam_score ≤ 1) :
    0 ≤ (spamParseLine st line0).spam_score ∧ (spamParseLine st line0).spam_score ≤ 1 := by
  simp only [spamParseLine]
  split_ifs
  · exact ⟨h0, h1⟩
  · cases hp : pyFloat (pyStrip (pyAfterChar ':' (pyStrip line0))) with
    | some v => simp only [hp]; exact ⟨clamp01_nonneg v, clamp01_le_one v⟩
    | none => simp only [hp]; norm_num
  · cases hp : pyFloat (pyStrip (pyAfterChar ':' (pyStrip line0))) with
    | some v => simp only [hp]; exact ⟨clamp01_nonneg v, clamp01_le_one v⟩
    | none => simp only [hp]; norm_num
  · exact ⟨h0, h1⟩
  · exact ⟨h0, h1⟩
  · exact ⟨h0, h1⟩

theorem foldl_spamParse_bounds (lines : List String) (st : SpamParseState)
    (h0 : 0 ≤ st.spam_score) (h1 : st.spam_score ≤ 1) :
    0 ≤ (lines.foldl spamParseLine st).spam_score ∧
      (lines.foldl spamParseLine st).spam_score ≤ 1 := by
  induction lines generalizing st with
  | nil => exact ⟨h0, h1⟩
  | cons l ls ih =>
    obtain ⟨a, b⟩ := spamParseLine_score_bounds st l h0 h1
    exact ih _ a b

theorem detect_spam_score_bounds (modelOutput content : String) (md : List (String × String)) :
    0 ≤ (detect_spam modelOutput content md).spam_score ∧
      (detect_spam modelOutput content md).spam_score ≤ 1 := by
  unfold detect_spam
  exact foldl_spamParse_bounds _ _ (by norm_num) (by norm_num)

theorem calculate_priority_bounds (modelOutput : String) :
    0 ≤ calculate_priority modelOutput ∧ calculate_priority modelOutput ≤ 1 := by
  unfold calculate_priority
  cases hp : pyFloat (pyStrip modelOutput) with
  | some v => exact ⟨clamp01_nonneg v, clamp01_le_one v⟩
  | none => norm_num

theorem parseTaskLine_valid (line : String) (t : String × String)
    (h : parseTaskLine line = some t) : validTaskTypes.contains t.1 = true := by
  simp only [parseTaskLine] at h
  split_ifs at h with h1 h2 h3 <;> simp_all
  subst h
  simpa using h3

theorem fbCalculatePriority_bounds (msg : NormalizedMessage) :
    0 ≤ BasicTextProcessor.fbCalculatePriority msg ∧
      BasicTextProcessor.fbCalculatePriority msg ≤ 1 := by
  unfold BasicTextProcessor.fbCalculatePriority
  split_ifs <;> try norm_num
  all_goals split_ifs <;> norm_num

theorem analyzed_scores_bounds (c : RunnerCalls) (msg : NormalizedMessage)
    (res : MessageAnalysisResult)
    (h : MessageAnalysisAgent.analyze (runnerOutcomes c msg) = .ok res) :
    (0 ≤ res.priority_score ∧ res.priority_score ≤ 1) ∧
      0 ≤ res.spam_score ∧ res.spam_score ≤ 1 := by
  simp only [MessageAnalysisAgent.analyze, Except.ok.injEq] at h
  subst h
  constructor
  · simp only [runnerOutcomes]
    cases c.prioritize with
    | ok s => simpa [Except.map] using calculate_priority_bounds s
    | error e => norm_num [Except.map]
  · simp only [runnerOutcomes]
    cases c.detectSpam with
    | ok s => simpa [Except.map] using (detect_spam_score_bounds s msg.content msg.metadata)
    | error e => norm_num [Except.map]

theorem mkSchema_isOk (src : AnalysisSource) (mid : String)
    (h0 : 0 ≤ src.priority_score) (h1 : src.priority_score ≤ 1)
    (h2 : 0 ≤ src.spam_score) (h3 : src.spam_score ≤ 1) :
    (mkMessageAnalysisSchema src mid).isOk = true := by
  simp [mkMessageAnalysisSchema, h0, h1, h2, h3, Except.isOk, Except.toBool]

theorem am_result_eq (orch : Except PyErr MessageAnalysisResult) (env : AIService.AnalyzeEnv)
    (msg : NormalizedMessage) (db : DbState) (vec : VectorStore) (h : env.commitOk = true) :
    (AIService.analyze_message orch env msg db vec).result =
      mkMessageAnalysisSchema (analysisSource orch msg) msg.id := by
  simp [AIService.analyze_message, h]

theorem am_usedFallback_eq (orch : Except PyErr MessageAnalysisResult)
    (env : AIService.AnalyzeEnv) (msg : NormalizedMessage) (db : DbState) (vec : VectorStore) :
    (AIService.analyze_message orch env msg db vec).usedFallback =
      match orch with
      | .ok _ => false
      | .error _ => true := by
  by_cases h : env.commitOk <;> simp [AIService.analyze_message, h]

theorem am_repliesTriggered_eq (orch : Except PyErr MessageAnalysisResult)
    (env : AIService.AnalyzeEnv) (msg : NormalizedMessage) (db : DbState) (vec : VectorStore)
    (h : env.commitOk = true) :
    (AIService.analyze_message orch env msg db vec).repliesTriggered =
      (!(analysisSource orch msg).is_spam &&
        decide ((3 : ℚ)/10 < (analysisSource orch msg).priority_score) &&
        AIService.is_replyable_sender msg.sender) := by
  simp [AIService.analyze_message, h]

theorem am_analyses_eq (orch : Except PyErr MessageAnalysisResult) (env : AIService.AnalyzeEnv)
    (msg : NormalizedMessage) (db : DbState) (vec : VectorStore) (h : env.commitOk = true) :
    (AIService.analyze_message orch env msg db vec).db.analyses =
      db.analyses ++ [AIService.mkAnalysisRow msg (analysisSource orch msg)] := by
  simp only [AIService.analyze_message, h, Bool.not_true, Bool.false_eq_true, if_false]
  cases hrm : env.replyModel <;> split_ifs <;> simp

theorem am_actionables_eq (orch : Except PyErr MessageAnalysisResult) (env : AIService.AnalyzeEnv)
    (msg : NormalizedMessage) (db : DbState) (vec : VectorStore) (h : env.commitOk = true) :
    (AIService.analyze_message orch env msg db vec).db.actionables =
      db.actionables ++ AIService.mkActionableRows msg (analysisSource orch msg) := by
  simp only [AIService.analyze_message, h, Bool.not_true, Bool.false_eq_true, if_false]
  cases hrm : env.replyModel <;> split_ifs <;> simp

theorem am_vec_eq (orch : Except PyErr MessageAnalysisResult) (env : AIService.AnalyzeEnv)
    (msg : NormalizedMessage) (db : DbState) (vec : VectorStore) (h : env.commitOk = true) :
    (AIService.analyze_message orch env msg db vec).vec =
      match env.embedCall with
      | .ok _ => vecUpsert vec ⟨msg.id, msg.user_id⟩
      | .error _ => vec := by
  simp [AIService.analyze_message, h]

theorem fallbackSource_scores (e : PyErr) (msg : NormalizedMessage) :
    (analysisSource (.error e) msg).priority_score = BasicTextProcessor.fbCalculatePriority msg ∧
      (analysisSource (.error e) msg).spam_score = 0 := by
  simp [analysisSource, AnalysisSource.priority_score, AnalysisSource.spam_score,
    basicProcessorAnalyze]

theorem reanalyze_eq (orch : Except PyErr MessageAnalysisResult) (env : AIService.AnalyzeEnv)
    (msg : NormalizedMessage) (db : DbState) (vec : VectorStore) :
    AIService.reanalyze_message true orch env msg db vec =
      AIService.analyze_message orch env msg
        { db with
            analyses := db.analyses.filter (fun a => a.message_id != msg.id)
            actionables := db.actionables.filter (fun a => a.message_id != msg.id) } vec := by
  simp [AIService.reanalyze_message]

theorem filter_ne_then_eq_analysis (m : String) (l : List AnalysisRow) :
    (l.filter fun a => a.message_id != m).filter (fun a => a.message_id == m) = [] := by
  induction l with
  | nil => rfl
  | cons x xs ih =>
    cases h : x.message_id == m with
    | true => simp [List.filter_cons, bne, h, ih]
    | false => simp [List.filter_cons, bne, h, ih]

theorem filter_ne_then_eq_actionable (m : String) (l : List ActionableItemRow) :
    (l.filter fun a => a.message_id != m).filter (fun a => a.message_id == m) = [] := by
  induction l with
  | nil => rfl
  | cons x xs ih =>
    cases h : x.message_id == m with
    | true => simp [List.filter_cons, bne, h, ih]
    | false => simp [List.filter_cons, bne, h, ih]

theorem queryPendingReply_status (replies : List SmartReplyRow) (rid : Nat) (uid : String)
    (r : SmartReplyRow) (h : SmartReplyService.queryPendingReply replies rid uid = some r) :
    r.status = "pending" := by
  unfold SmartReplyService.queryPendingReply at h
  have hmem : r ∈ replies.filter
      (fun x => x.id == rid && x.user_id == uid && x.status == "pending") := by
    rcases hf : replies.filter
        (fun x => x.id == rid && x.user_id == uid && x.status == "pending") with _ | ⟨a, l⟩
    · rw [hf] at h; exact absurd h (by simp)
    · rw [hf] at h
      injection h with h'
      subst h'
      exact hf ▸ List.mem_cons_self a l
  have hp := (List.mem_filter.mp hmem).2
  simp only [Bool.and_eq_true, beq_iff_eq] at hp
  exact hp.2

theorem mkActionableRows_all_mid (msg : NormalizedMessage) (src : AnalysisSource) :
    (AIService.mkActionableRows msg src).filter (fun a => a.message_id == msg.id) =
      AIService.mkActionableRows msg src := by
  rw [List.filter_eq_self]
  intro a ha
  rw [AIService.mkActionableRows, List.mem_append] at ha
  rcases ha with h | h <;> obtain ⟨t, -, rfl⟩ := List.mem_map.mp h <;> simp

/-! ## Claim theorems -/

/-- C1 counterexample: when every runner's underlying client raises
the non-recoverable initialization error, MessageAnalysisAgent.analyze
does not raise to its caller: asyncio.gather with return_exceptions
delivers each exception as a value and the unpacking substitutes every
per-field default, so analyze returns the all-defaults result — against
the claim that orchestration itself fails exactly then. -/
theorem C1_counterexample :
    MessageAnalysisAgent.analyze allInitErrors =
      Except.ok
        { summary := "Error generating summary"
          intent := "other"
          priority_score := 1/2
          tasks := []
          deadlines := []
          is_spam := false
          spam_score := 0
          spam_type := "none"
          unsubscribe_link := none } := rfl

/-- C1 as amended: for every combination of runner outcomes, analyze
succeeds, keeping each successful runner's value and substituting the
documented per-field default for each failed runner (summary error
text, intent other, priority one half, empty task and deadline lists,
and the neutral spam verdict); it never raises merely because
individual runners fail — indeed it never raises at all, even when
every runner fails with the initialization error, so the persistence
coordinator's rule-based fallback is not reachable through runner
failures. -/
theorem C1_per_task_isolation :
    ∀ r : RunnerOutcomes, ∃ res : MessageAnalysisResult,
      MessageAnalysisAgent.analyze r = Except.ok res ∧
      (∀ v, r.summarize = .ok v → res.summary = v) ∧
      (∀ e, r.summarize = .error e → res.summary = "Error generating summary") ∧
      (∀ v, r.classify = .ok v → res.intent = v) ∧
      (∀ e, r.classify = .error e → res.intent = "other") ∧
      (∀ v, r.prioritize = .ok v → res.priority_score = v) ∧
      (∀ e, r.prioritize = .error e → res.priority_score = 1/2) ∧
      (∀ v, r.extractTasks = .ok v →
        res.tasks = v.map fun t => { type := t.1, description := t.2, deadline := none }) ∧
      (∀ e, r.extractTasks = .error e → res.tasks = []) ∧
      (∀ v, r.detectDeadlines = .ok v →
        res.deadlines = v.map fun d => { description := d.1, date := d.2 }) ∧
      (∀ e, r.detectDeadlines = .error e → res.deadlines = []) ∧
      (∀ v, r.detectSpam = .ok v → res.is_spam = v.is_spam ∧ res.spam_score = v.spam_score ∧
        res.spam_type = v.spam_type ∧ res.unsubscribe_link = v.unsubscribe_link) ∧
      (∀ e, r.detectSpam = .error e → res.is_spam = false ∧ res.spam_score = 0 ∧
        res.spam_type = "none" ∧ res.unsubscribe_link = none) := by
  intro r
  refine ⟨_, rfl, ?_, ?_, ?_, ?_, ?_, ?_, ?_, ?_, ?_, ?_, ?_, ?_⟩ <;>
    intro v h <;> simp [MessageAnalysisAgent.analyze, h]

/-- Witness for the amended C1, applying it with every runner failing
with the initialization error and reading off the defaults. -/
theorem C1_per_task_isolation_witness :
    ∃ res : MessageAnalysisResult,
      MessageAnalysisAgent.analyze allInitErrors = Except.ok res ∧
      res.summary = "Error generating summary" ∧ res.intent = "other" ∧
      res.priority_score = 1/2 ∧ res.tasks = [] ∧ res.deadlines = [] ∧
      res.is_spam = false ∧ res.spam_score = 0 ∧ res.spam_type = "none" := by
  obtain ⟨res, hok, _, hs, _, hi, _, hp, _, ht, _, hd, _, hsp⟩ :=
    C1_per_task_isolation allInitErrors
  obtain ⟨h1, h2, h3, -⟩ := hsp initError rfl
  exact ⟨res, hok, hs initError rfl, hi initError rfl, hp initError rfl,
    ht initError rfl, hd initError rfl, h1, h2, h3⟩

/-- C2 counterexample: with every analysis task made to fail,
analyze_message (run with a succeeding commit) does return a result —
but the rule-based fallback processor is not used: the orchestrator
absorbs the failures itself, against the claim that the fallback path
is exercised then. -/
theorem C2_counterexample :
    (analyzeMessageFromCalls allFailCalls envOk sampleMsg dbEmpty []).usedFallback = false ∧
    (analyzeMessageFromCalls allFailCalls envOk sampleMsg dbEmpty []).result.isOk = true := by
  constructor
  · rfl
  · have hsrc : analysisSource (MessageAnalysisAgent.analyze (runnerOutcomes allFailCalls sampleMsg))
        sampleMsg = .agent
          { summary := "Error generating summary"
            intent := "other"
            priority_score := 1/2
            tasks := []
            deadlines := []
            is_spam := false
            spam_score := 0
            spam_type := "none"
            unsubscribe_link := none } := rfl
    rw [analyzeMessageFromCalls, am_result_eq _ _ _ _ _ rfl, hsrc]
    exact mkSchema_isOk _ _ (by norm_num [AnalysisSource.priority_score])
      (by norm_num [AnalysisSource.priority_score])
      (by norm_num [AnalysisSource.spam_score])
      (by norm_num [AnalysisSource.spam_score])

/-- C2 as amended: analyze_message returns a result without raising
whenever the analysis commit succeeds, even when every individual
analysis task fails — but in that case the orchestrator's per-task
defaults are used and the fallback processor is not (usedFallback is
false); the rule-based fallback runs only when the orchestrator call
itself raises, in which case the call still returns without raising —
and the returned schema then carries no degraded-analysis tag: the
fallback dictionary's fallback_used flag is dropped by the adapter
shim, so a degraded run's returned schema can coincide exactly with a
model-backed run's. -/
theorem C2_no_raise_no_tag :
    (∀ (c : RunnerCalls) (env : AIService.AnalyzeEnv) (msg : NormalizedMessage)
        (db : DbState) (vec : VectorStore), env.commitOk = true →
      (analyzeMessageFromCalls c env msg db vec).result.isOk = true ∧
      (analyzeMessageFromCalls c env msg db vec).usedFallback = false) ∧
    (∀ (e : PyErr) (env : AIService.AnalyzeEnv) (msg : NormalizedMessage)
        (db : DbState) (vec : VectorStore), env.commitOk = true →
      (AIService.analyze_message (.error e) env msg db vec).result.isOk = true ∧
      (AIService.analyze_message (.error e) env msg db vec).usedFallback = true) ∧
    (AIService.analyze_message (.error initError) envOk sampleMsg dbEmpty []).result =
      (AIService.analyze_message (.ok mirroredAgentResult) envOk sampleMsg dbEmpty []).result := by
  refine ⟨?_, ?_, ?_⟩
  · intro c env msg db vec h
    constructor
    · obtain ⟨res, hres⟩ : ∃ res, MessageAnalysisAgent.analyze (runnerOutcomes c msg) =
          Except.ok res := ⟨_, rfl⟩
      obtain ⟨⟨p0, p1⟩, s0, s1⟩ := analyzed_scores_bounds c msg res hres
      rw [analyzeMessageFromCalls, am_result_eq _ _ _ _ _ h, hres]
      exact mkSchema_isOk _ _ p0 p1 s0 s1
    · rw [analyzeMessageFromCalls, am_usedFallback_eq]
      obtain ⟨res, hres⟩ : ∃ res, MessageAnalysisAgent.analyze (runnerOutcomes c msg) =
          Except.ok res := ⟨_, rfl⟩
      rw [hres]
  · intro e env msg db vec h
    constructor
    · obtain ⟨hp, hs⟩ := fallbackSource_scores e msg
      obtain ⟨b0, b1⟩ := fbCalculatePriority_bounds msg
      rw [am_result_eq _ _ _ _ _ h]
      exact mkSchema_isOk _ _ (hp ▸ b0) (hp ▸ b1) (hs ▸ le_refl 0) (hs ▸ zero_le_one)
    · rw [am_usedFallback_eq]
  · rfl

/-- Witness for the amended C2, applying it with every task failing
and with the orchestrator itself failing, at a concrete message and a
succeeding commit. -/
theorem C2_no_raise_no_tag_witness :
    (analyzeMessageFromCalls allFailCalls envOk sampleMsg dbEmpty []).result.isOk = true ∧
    (AIService.analyze_message (.error initError) envOk sampleMsg dbEmpty []).result.isOk
      = true :=
  ⟨(C2_no_raise_no_tag.1 allFailCalls envOk sampleMsg dbEmpty [] rfl).1,
   (C2_no_raise_no_tag.2.1 initError envOk sampleMsg dbEmpty [] rfl).1⟩

/-- C3: for every analysis result, the priority score and the spam
confidence are within the unit interval regardless of the model's text
output; a successful numeric parse is clamped and a failed parse
substitutes the documented default (0.5 for priority; for the spam
confidence, 0.5 when the spam flag is true and 0.0 otherwise), as the
concrete malformed and out-of-range outputs illustrate. -/
theorem C3_score_bounds_and_defaults :
    (∀ modelOutput : String,
      0 ≤ calculate_priority modelOutput ∧ calculate_priority modelOutput ≤ 1) ∧
    (∀ (modelOutput content : String) (metadata : List (String × String)),
      0 ≤ (detect_spam modelOutput content metadata).spam_score ∧
        (detect_spam modelOutput content metadata).spam_score ≤ 1) ∧
    calculate_priority "1.7" = 1 ∧
    calculate_priority "-0.2" = 0 ∧
    calculate_priority "0.8" = 4/5 ∧
    calculate_priority "not a number" = 1/2 ∧
    (detect_spam "IS_SPAM: true\nSPAM_SCORE: very high\nSPAM_TYPE: phishing\nREASON: x"
        "" []).spam_score = 1/2 ∧
    (detect_spam "IS_SPAM: false\nSPAM_SCORE: garbage\nSPAM_TYPE: none\nREASON: x"
        "" []).spam_score = 0 := by
  refine ⟨calculate_priority_bounds, detect_spam_score_bounds, ?_, ?_, ?_, ?_, ?_, ?_⟩
  · have h : pyFloatRaw (pyStrip "1.7") = some (17, -1) := by decide
    norm_num [calculate_priority, pyFloat, h, clamp01, min_def, max_def]
  · have h : pyFloatRaw (pyStrip "-0.2") = some (-2, -1) := by decide
    norm_num [calculate_priority, pyFloat, h, clamp01, min_def, max_def]
  · have h : pyFloatRaw (pyStrip "0.8") = some (8, -1) := by decide
    norm_num [calculate_priority, pyFloat, h, clamp01, min_def, max_def]
  · have h : pyFloatRaw (pyStrip "not a number") = none := by decide
    norm_num [calculate_priority, pyFloat, h]
  · rfl
  · rfl

/-- C4: during analyze_message (with the analysis commit succeeding),
the lightweight reply-suggestion step is entered exactly when all
three predicates hold — the analysis is not spam, its priority score
exceeds 0.3, and the sender does not match a configured no-reply
pattern (the empty sender also being unreplyable); a failure inside
the suggestion step is swallowed: the returned result, the analysis
and actionable rows and the vector store are identical whatever the
suggestion step's external outcomes. The three concrete spec scenarios
are instances. -/
theorem C4_reply_gating :
    (∀ (orch : Except PyErr MessageAnalysisResult) (env : AIService.AnalyzeEnv)
        (msg : NormalizedMessage) (db : DbState) (vec : VectorStore), env.commitOk = true →
      ((AIService.analyze_message orch env msg db vec).repliesTriggered = true ↔
        ((analysisSource orch msg).is_spam = false ∧
          (3 : ℚ)/10 < (analysisSource orch msg).priority_score ∧
          AIService.is_replyable_sender msg.sender = true))) ∧
    (∀ (orch : Except PyErr MessageAnalysisResult) (c : Bool)
        (rm₁ rm₂ : Except PyErr String) (rc₁ rc₂ : Bool) (em : Except PyErr Unit)
        (msg : NormalizedMessage) (db : DbState) (vec : VectorStore),
      (AIService.analyze_message orch ⟨c, rm₁, rc₁, em⟩ msg db vec).result =
        (AIService.analyze_message orch ⟨c, rm₂, rc₂, em⟩ msg db vec).result ∧
      (AIService.analyze_message orch ⟨c, rm₁, rc₁, em⟩ msg db vec).db.analyses =
        (AIService.analyze_message orch ⟨c, rm₂, rc₂, em⟩ msg db vec).db.analyses ∧
      (AIService.analyze_message orch ⟨c, rm₁, rc₁, em⟩ msg db vec).db.actionables =
        (AIService.analyze_message orch ⟨c, rm₂, rc₂, em⟩ msg db vec).db.actionables ∧
      (AIService.analyze_message orch ⟨c, rm₁, rc₁, em⟩ msg db vec).vec =
        (AIService.analyze_message orch ⟨c, rm₂, rc₂, em⟩ msg db vec).vec) ∧
    (AIService.analyze_message
      (.ok { summary := "s", intent := "other", priority_score := 9/10, tasks := [],
             deadlines := [], is_spam := false, spam_score := 0, spam_type := "none",
             unsubscribe_link := none })
      envOk { sampleMsg with sender := "noreply@service.com" } dbEmpty []).repliesTriggered
        = false ∧
    (AIService.analyze_message
      (.ok { summary := "s", intent := "other", priority_score := 31/100, tasks := [],
             deadlines := [], is_spam := false, spam_score := 0, spam_type := "none",
             unsubscribe_link := none })
      envOk sampleMsg dbEmpty []).repliesTriggered = true ∧
    (AIService.analyze_message
      (.ok { summary := "s", intent := "other", priority_score := 9/10, tasks := [],
             deadlines := [], is_spam := true, spam_score := 1, spam_type := "promotional",
             unsubscribe_link := none })
      envOk sampleMsg dbEmpty []).repliesTriggered = false := by
  refine ⟨?_, ?_, ?_, ?_, ?_⟩
  · intro orch env msg db vec h
    rw [am_repliesTriggered_eq _ _ _ _ _ h]
    simp [Bool.and_eq_true, decide_eq_true_eq, Bool.not_eq_true', and_assoc]
  · intro orch c rm₁ rm₂ rc₁ rc₂ em msg db vec
    cases c with
    | false => exact ⟨rfl, rfl, rfl, rfl⟩
    | true =>
      refine ⟨?_, ?_, ?_, ?_⟩
      · rw [am_result_eq _ _ _ _ _ rfl, am_result_eq _ _ _ _ _ rfl]
      · rw [am_analyses_eq _ _ _ _ _ rfl, am_analyses_eq _ _ _ _ _ rfl]
      · rw [am_actionables_eq _ _ _ _ _ rfl, am_actionables_eq _ _ _ _ _ rfl]
      · rw [am_vec_eq _ _ _ _ _ rfl, am_vec_eq _ _ _ _ _ rfl]
  · rw [am_repliesTriggered_eq _ _ _ _ _ rfl]
    simp [show AIService.is_replyable_sender "noreply@service.com" = false from by decide]
  · rw [am_repliesTriggered_eq _ _ _ _ _ rfl]
    simp only [analysisSource, AnalysisSource.is_spam, AnalysisSource.priority_score,
      Bool.not_false, Bool.true_and, Bool.and_eq_true, decide_eq_true_eq]
    exact ⟨by norm_num, by decide⟩
  · rw [am_repliesTriggered_eq _ _ _ _ _ rfl]
    simp [analysisSource, AnalysisSource.is_spam]

/-- Witness for C4, applying the gating biconditional at a concrete
model-backed result, message and succeeding commit. -/
theorem C4_reply_gating_witness :
    ((AIService.analyze_message (.ok mirroredAgentResult) envOk sampleMsg dbEmpty
        []).repliesTriggered = true ↔
      ((analysisSource (.ok mirroredAgentResult) sampleMsg).is_spam = false ∧
        (3 : ℚ)/10 < (analysisSource (.ok mirroredAgentResult) sampleMsg).priority_score ∧
        AIService.is_replyable_sender sampleMsg.sender = true)) :=
  C4_reply_gating.1 (.ok mirroredAgentResult) envOk sampleMsg dbEmpty [] rfl

/-- C10: for every message whose sender string is empty,
_is_replyable_sender returns false (the guard on a falsy sender fires
before any pattern is consulted), so analyze_message never enters
reply-suggestion generation for such a message, whatever the analysis
outcome, priority or spam verdict. -/
theorem C10_empty_sender_not_replyable :
    AIService.is_replyable_sender "" = false ∧
    (∀ (orch : Except PyErr MessageAnalysisResult) (env : AIService.AnalyzeEnv)
        (db : DbState) (vec : VectorStore)
        (mid uid pf pmid content : String) (subj : Option String) (ts : Nat)
        (tid : Option String) (md : List (String × String)),
      (AIService.analyze_message orch env
        { id := mid, user_id := uid, platform := pf, platform_message_id := pmid,
          sender := "", content := content, subject := subj, timestamp := ts,
          thread_id := tid, metadata := md } db vec).repliesTriggered = false) := by
  refine ⟨rfl, ?_⟩
  intro orch env db vec mid uid pf pmid content subj ts tid md
  by_cases h : env.commitOk
  · rw [am_repliesTriggered_eq _ _ _ _ _ h]
    simp [AIService.is_replyable_sender]
  · simp [AIService.analyze_message, h]

/-- C5: the reply review state machine: editing a reply found pending
replaces its draft content and leaves its status pending (only the
review timestamp moves); approving a pending reply whose platform send
call fails moves its status to approved — not back to pending and not
to sent — stores that downgrade, and re-raises the send failure (with
the underlying error's message) to the caller, so the draft survives
for a retry. -/
theorem C5_reply_state_machine :
    ∀ (replies : List SmartReplyRow) (messageIds : List String) (rid : Nat)
      (uid content : String) (e : PyErr) (now : Nat) (r : SmartReplyRow),
      SmartReplyService.queryPendingReply replies rid uid = some r →
      ((SmartReplyService.edit_reply replies rid uid content now).1 =
          Except.ok { r with draft_content := content, reviewed_at := some now } ∧
        ({ r with draft_content := content, reviewed_at := some now } : SmartReplyRow).status =
          "pending" ∧
        (SmartReplyService.edit_reply replies rid uid content now).2 =
          SmartReplyService.updateReply replies
            { r with draft_content := content, reviewed_at := some now }) ∧
      (r.message_id ∈ messageIds →
        SmartReplyService.approve_reply replies messageIds rid uid (.error e) now =
          (Except.error ⟨"Exception", "Failed to send reply: " ++ e.msg⟩,
           SmartReplyService.updateReply replies
             { r with status := "approved", reviewed_at := some now })) := by
  intro replies messageIds rid uid content e now r h
  refine ⟨⟨?_, ?_, ?_⟩, ?_⟩
  · simp [SmartReplyService.edit_reply, h]
  · simpa using queryPendingReply_status replies rid uid r h
  · simp [SmartReplyService.edit_reply, h]
  · intro hmem
    have hc : messageIds.contains r.message_id = true := by
      simpa [List.elem_iff] using hmem
    simp [SmartReplyService.approve_reply, h, hc, hmem]

/-- Witness for C5: a concrete pending draft edited and then approved
with a failing send. -/
theorem C5_reply_state_machine_witness :
    (SmartReplyService.edit_reply [samplePendingReply] 0 "u1" "new text" 5).1 =
      Except.ok { samplePendingReply with draft_content := "new text", reviewed_at := some 5 } ∧
    SmartReplyService.approve_reply [samplePendingReply] ["m1"] 0 "u1" (.error initError) 5 =
      (Except.error ⟨"Exception", "Failed to send reply: " ++ initError.msg⟩,
       SmartReplyService.updateReply [samplePendingReply]
         { samplePendingReply with status := "approved", reviewed_at := some 5 }) := by
  obtain ⟨⟨h1, -, -⟩, h2⟩ :=
    C5_reply_state_machine [samplePendingReply] ["m1"] 0 "u1" "new text" initError 5
      samplePendingReply rfl
  exact ⟨h1, h2 (by simp [samplePendingReply])⟩

/-- C6 (code bug): explicit AI-data deletion does not deliver the
claimed guarantees. Message-level: with the relational deletes
succeeding and the vector delete stubbed to fail, delete_message_data
still returns success — the Qdrant manager catches the failure and
reports it as a boolean which the service ignores — leaving the vector
point behind (silent partial deletion). User-level: delete_user_data
returns success while leaving the user's AnalysisResult row untouched
(it deletes only actionable items and embeddings), although its own
docstring says it deletes all AI-related data for the user. -/
theorem C6_deletion_gaps :
    (AIService.delete_message_data true (.error initError) "m1" sampleDb sampleVec).1 = true ∧
    (AIService.delete_message_data true (.error initError) "m1" sampleDb sampleVec).2.1.analyses
      = [] ∧
    (AIService.delete_message_data true (.error initError) "m1" sampleDb sampleVec).2.2 =
      sampleVec ∧
    (AIService.delete_user_data true (.ok ()) "u1" sampleDb sampleVec).1 = true ∧
    (AIService.delete_user_data true (.ok ()) "u1" sampleDb sampleVec).2.1.analyses =
      sampleDb.analyses ∧
    (AIService.delete_user_data true (.ok ()) "u1" sampleDb sampleVec).2.1.actionables = [] ∧
    (AIService.delete_user_data true (.ok ()) "u1" sampleDb sampleVec).2.2 = [] :=
  ⟨rfl, rfl, rfl, rfl, rfl, rfl, rfl⟩

/-- C8 counterexample: a bare URL containing the token remove is not
matched: in promotional spam whose content holds only the bare URL
https-x.com-remove-me, no unsubscribe link is extracted, although the
claim's description says bare URLs containing remove are scanned (the
source's pattern list has anchor patterns for all three keywords but
bare-URL patterns only for unsubscribe and opt-out). -/
theorem C8_counterexample :
    (detect_spam "IS_SPAM: true\nSPAM_SCORE: 0.9\nSPAM_TYPE: promotional\nREASON: ad"
      "Please visit https://x.com/remove-me for more" []).unsubscribe_link = none ∧
    extract_unsubscribe_link "Please visit https://x.com/remove-me for more" [] = none := by
  exact ⟨by decide, by decide⟩

/-- C8 as amended: unsubscribe-link extraction is deterministic and
attempted exactly when the model flagged promotional, newsletter or
marketing spam; the angle-bracket URL in the List-Unsubscribe-style
metadata field wins over any content match; then the content regexes
run in the source's order — anchor tags containing unsubscribe,
opt-out or remove, then bare URLs containing unsubscribe or opt-out
(not remove) — returning the first match, as the concrete scenarios
illustrate (the anchor example yields exactly its href URL; with both
a header and a content link the header link is returned; an anchor
match beats a bare URL). -/
theorem C8_unsubscribe_extraction :
    (∀ (modelOutput content : String) (md : List (String × String)),
      (detect_spam modelOutput content md).unsubscribe_link =
        if (detect_spam modelOutput content md).is_spam &&
            unsubSpamTypes.contains (detect_spam modelOutput content md).spam_type then
          extract_unsubscribe_link content md
        else none) ∧
    (∀ (content v : String) (md : List (String × String)) (u : List Char),
      md.lookup "list_unsubscribe" = some v → angleUrl v.data = some u →
      extract_unsubscribe_link content md = some (String.mk u)) ∧
    (detect_spam "IS_SPAM: true\nSPAM_SCORE: 0.8\nSPAM_TYPE: promotional\nREASON: ad"
      "Click <a href=\"https://x.com/unsubscribe?id=1\">unsubscribe</a> now"
      []).unsubscribe_link = some "https://x.com/unsubscribe?id=1" ∧
    extract_unsubscribe_link
      "Click <a href=\"https://x.com/unsubscribe?id=1\">unsubscribe</a> now"
      [("list_unsubscribe", "<https://x.com/u>")] = some "https://x.com/u" ∧
    extract_unsubscribe_link
      "<a href=\"https://x.com/remove\">bye</a> or go to https://y.com/unsubscribe" [] =
      some "https://x.com/remove" ∧
    extract_unsubscribe_link "go to https://news.example.com/opt-out/12 today" [] =
      some "https://news.example.com/opt-out/12" := by
  refine ⟨?_, ?_, by decide, by decide, by decide, by decide⟩
  · intro modelOutput content md
    rfl
  · intro content v md u h1 h2
    simp [extract_unsubscribe_link, h1, h2]

/-- Witness for the amended C8, applying it at the concrete
header-takes-priority scenario. -/
theorem C8_unsubscribe_extraction_witness :
    extract_unsubscribe_link "some content" [("list_unsubscribe", "<https://x.com/u>")] =
      some "https://x.com/u" := by
  exact C8_unsubscribe_extraction.2.1 "some content" "<https://x.com/u>"
    [("list_unsubscribe", "<https://x.com/u>")] "https://x.com/u".data rfl (by decide)

/-- C7: re-analysis is idempotent delete-then-rerun: whatever the
prior state and the first run's outcomes, after running re-analysis
twice (with succeeding commits) the message has exactly one analysis
row — the one written by the second run — and its actionable items are
exactly those derived from the second run's outcome, never merged with
the first run's. -/
theorem C7_reanalyze_idempotent :
    ∀ (orch₁ orch₂ : Except PyErr MessageAnalysisResult)
      (rm₁ rm₂ : Except PyErr String) (rc₁ rc₂ : Bool) (em₁ em₂ : Except PyErr Unit)
      (msg : NormalizedMessage) (db : DbState) (vec : VectorStore),
      ((AIService.reanalyze_message true orch₂ ⟨true, rm₂, rc₂, em₂⟩ msg
          (AIService.reanalyze_message true orch₁ ⟨true, rm₁, rc₁, em₁⟩ msg db vec).db
          (AIService.reanalyze_message true orch₁ ⟨true, rm₁, rc₁, em₁⟩ msg db
            vec).vec).db.analyses.filter
        (fun a => a.message_id == msg.id) =
          [AIService.mkAnalysisRow msg (analysisSource orch₂ msg)]) ∧
      ((AIService.reanalyze_message true orch₂ ⟨true, rm₂, rc₂, em₂⟩ msg
          (AIService.reanalyze_message true orch₁ ⟨true, rm₁, rc₁, em₁⟩ msg db vec).db
          (AIService.reanalyze_message true orch₁ ⟨true, rm₁, rc₁, em₁⟩ msg db
            vec).vec).db.analyses.filter
        (fun a => a.message_id == msg.id)).length = 1 ∧
      ((AIService.reanalyze_message true orch₂ ⟨true, rm₂, rc₂, em₂⟩ msg
          (AIService.reanalyze_message true orch₁ ⟨true, rm₁, rc₁, em₁⟩ msg db vec).db
          (AIService.reanalyze_message true orch₁ ⟨true, rm₁, rc₁, em₁⟩ msg db
            vec).vec).db.actionables.filter
        (fun a => a.message_id == msg.id) =
          AIService.mkActionableRows msg (analysisSource orch₂ msg)) := by
  intro orch₁ orch₂ rm₁ rm₂ rc₁ rc₂ em₁ em₂ msg db vec
  have hA : ((AIService.reanalyze_message true orch₂ ⟨true, rm₂, rc₂, em₂⟩ msg
      (AIService.reanalyze_message true orch₁ ⟨true, rm₁, rc₁, em₁⟩ msg db vec).db
      (AIService.reanalyze_message true orch₁ ⟨true, rm₁, rc₁, em₁⟩ msg db
        vec).vec).db.analyses.filter (fun a => a.message_id == msg.id)) =
      [AIService.mkAnalysisRow msg (analysisSource orch₂ msg)] := by
    rw [reanalyze_eq orch₂, am_analyses_eq _ _ _ _ _ rfl, List.filter_append,
      filter_ne_then_eq_analysis]
    simp [AIService.mkAnalysisRow]
  refine ⟨hA, by rw [hA]; rfl, ?_⟩
  rw [reanalyze_eq orch₂, am_actionables_eq _ _ _ _ _ rfl, List.filter_append,
    filter_ne_then_eq_actionable, mkActionableRows_all_mid]
  rfl

/-- C9: task and deadline extraction parse a newline-delimited
mini-grammar: the sentinel tokens and empty output yield empty lists,
malformed lines are silently dropped while well-formed lines are kept
(the concrete mixed input parses to exactly its two well-formed
tuples), and everything kept carries a valid task type; the parse is a
total function, so a runner never fails on malformed text. -/
theorem C9_extraction_grammar :
    extract_tasks "NO_TASKS" = [] ∧
    extract_tasks "" = [] ∧
    detect_deadlines "NO_DEADLINES" = [] ∧
    detect_deadlines "" = [] ∧
    extract_tasks "task: buy milk\ninvalidline\ndeadline: file report" =
      [("task", "buy milk"), ("deadline", "file report")] ∧
    detect_deadlines "DEADLINE: file report | DATE: 2024-12-01\ngarbage line" =
      [("file report", some "2024-12-01")] ∧
    (∀ (modelOutput : String) (t : String × String),
      t ∈ extract_tasks modelOutput → validTaskTypes.contains t.1 = true) := by
  refine ⟨by decide, by decide, by decide, by decide, by decide, by decide, ?_⟩
  intro out t ht
  simp only [extract_tasks] at ht
  split_ifs at ht with hs
  · simp at ht
  · rw [List.mem_filterMap] at ht
    obtain ⟨l, _, hl⟩ := ht
    exact parseTaskLine_valid l t hl

/-- Witness for C9, applying the well-formedness clause at a concrete
parsed tuple. -/
theorem C9_extraction_grammar_witness :
    validTaskTypes.contains ("task", "buy milk").1 = true :=
  C9_extraction_grammar.2.2.2.2.2.2 "task: buy milk" ("task", "buy milk") (by decide)

end Champa
